import Mathlib

/-!
Verification development for the three-step multi-agent transaction
choreography implemented in `src/src/MultiAgentTest.tsx`.

The component holds five pieces of React state (`logs`, `loading`,
`serializedTransaction`, `secondSignerSignature`, `secondSignerAddress`)
and three step handlers (`step1_CreateTransaction`,
`step2_SecondSignerSign`, `step3_FirstSignerSubmit`).  Each handler is
embedded here as a pure function from an environment (the outcomes of
the external wallet/SDK/network calls it makes, which the component
treats as black boxes) and a component state to a new component state
together with the list of external calls it issued.  JavaScript
exceptions thrown by an external call are modelled by `Except` results
in the environment; the handlers catch every exception, so the embedded
functions are total and return no error value, mirroring the source's
`try`/`catch`/`finally` structure.
-/

/-- A byte, as carried in a `Uint8Array`. -/
abbrev Byte := Fin 256

/-- A binary artifact (bytecode, a BCS-serialized transaction, or a
BCS-serialized authenticator), as a list of bytes. -/
abbrev Bytes := List Byte

/-- Model of JavaScript `String.prototype.startsWith` on character
lists: `charsStartWith s p` holds when `p` is an initial segment of
`s`. -/
def charsStartWith : List Char → List Char → Bool
  | _, [] => true
  | [], _ :: _ => false
  | a :: as, p :: ps => (a = p) && charsStartWith as ps

/-- Model of JavaScript `String.prototype.startsWith`. -/
def strStartsWith (s pat : String) : Bool :=
  charsStartWith s.data pat.data

/-- Model of JavaScript `String.prototype.slice(n)` (drop the first
`n` characters). -/
def strDrop (s : String) (n : Nat) : String :=
  String.mk (s.data.drop n)

/-- Model of JavaScript `String.prototype.substring(0, n)` (take the
first `n` characters). -/
def strTake (s : String) (n : Nat) : String :=
  String.mk (s.data.take n)

/-- Lower-case hexadecimal digit character for a value below 16. -/
def hexDigitToChar (d : Fin 16) : Char :=
  if d.val < 10 then Char.ofNat (48 + d.val) else Char.ofNat (87 + d.val)

/-- Hexadecimal value of a character, tolerating both cases; `none` on
a non-hexadecimal character. -/
def hexCharToDigit (c : Char) : Option (Fin 16) :=
  if h1 : 48 ≤ c.toNat ∧ c.toNat ≤ 57 then some ⟨c.toNat - 48, by omega⟩
  else if h2 : 97 ≤ c.toNat ∧ c.toNat ≤ 102 then some ⟨c.toNat - 97 + 10, by omega⟩
  else if h3 : 65 ≤ c.toNat ∧ c.toNat ≤ 70 then some ⟨c.toNat - 65 + 10, by omega⟩
  else none

/-- The two hexadecimal digit characters of one byte, high nibble
first. -/
def byteToHexChars (b : Byte) : List Char :=
  [hexDigitToChar ⟨b.val / 16, by have := b.isLt; omega⟩,
   hexDigitToChar ⟨b.val % 16, Nat.mod_lt _ (by omega)⟩]

/-- Hexadecimal character string of a byte list. -/
def bytesToHexChars : Bytes → List Char
  | [] => []
  | b :: bs => byteToHexChars b ++ bytesToHexChars bs

/-- Modelled from the spec: the SDK's `Hex.toString()` body without the
prefix — the hexadecimal string of a binary serialization (§6, "all
cross-step artifacts are hexadecimal strings of a binary
serialization"). -/
def bytesToHexString (bs : Bytes) : String :=
  String.mk (bytesToHexChars bs)

/-- Modelled from the spec: `artifact.bcsToHex().toString()` from the
external SDK — the artifact is identified with its BCS byte string
(BCS is deterministic, §8 round-trip law) and rendered as a
`0x`-prefixed hexadecimal string. -/
def bcsToHexString (bs : Bytes) : String :=
  "0x" ++ bytesToHexString bs

/-- Decode a hexadecimal character list, two characters per byte;
`none` on an odd length or a non-hexadecimal character. -/
def decodeHexChars : List Char → Option Bytes
  | [] => some []
  | [_] => none
  | c1 :: c2 :: rest =>
    match hexCharToDigit c1, hexCharToDigit c2, decodeHexChars rest with
    | some d1, some d2, some bs =>
        some (⟨16 * d1.val + d2.val, by have := d1.isLt; have := d2.isLt; omega⟩ :: bs)
    | _, _, _ => none

/-- Modelled from the spec: `Hex.fromHexString(s).toUint8Array()` from
the external SDK — consumers "must tolerate presence or absence of
the `0x` prefix" (§6), so one leading `0x` is stripped before
decoding; an invalid string raises, modelled by `none`. -/
def hexStringToBytes (s : String) : Option Bytes :=
  decodeHexChars (if strStartsWith s "0x" then strDrop s 2 else s).data

theorem hexCharToDigit_hexDigitToChar :
    ∀ d : Fin 16, hexCharToDigit (hexDigitToChar d) = some d := by decide

theorem decodeHexChars_bytesToHexChars (bs : Bytes) :
    decodeHexChars (bytesToHexChars bs) = some bs := by
  induction bs with
  | nil => rfl
  | cons b rest ih =>
    show decodeHexChars (byteToHexChars b ++ bytesToHexChars rest) = _
    simp only [byteToHexChars, List.cons_append, List.append_eq, List.nil_append,
      decodeHexChars, hexCharToDigit_hexDigitToChar, ih, Option.some.injEq,
      List.cons.injEq, Fin.ext_iff, and_true]
    omega

theorem charsStartWith_nil (l : List Char) : charsStartWith l [] = true := by
  cases l <;> rfl

theorem data_0x_append (t : String) : ("0x" ++ t).data = '0' :: 'x' :: t.data := by
  have h : ("0x" ++ t).data = ("0x").data ++ t.data := String.data_append "0x" t
  simp only [h]
  rfl

theorem strStartsWith_0x_append (t : String) :
    strStartsWith ("0x" ++ t) "0x" = true := by
  simp [strStartsWith, data_0x_append, charsStartWith, charsStartWith_nil]

theorem strDrop_0x_append (t : String) : strDrop ("0x" ++ t) 2 = t := by
  simp only [strDrop, data_0x_append, List.drop_succ_cons, List.drop_zero]

theorem hexStringToBytes_bcsToHexString (bs : Bytes) :
    hexStringToBytes (bcsToHexString bs) = some bs := by
  simp only [hexStringToBytes, bcsToHexString, strStartsWith_0x_append,
    if_pos, strDrop_0x_append]
  exact decodeHexChars_bytesToHexChars bs

/-- The component's React state (`MultiAgentTest.tsx`, lines 26-32):
the log stream, the loading flag, and the simulated "backend" storage
(the Relay Store's transaction and authenticator slots) together with
the remembered secondary-signer address.  Empty string means an empty
slot, matching the `useState<string>("")` initializers. -/
structure ComponentState where
  logs : List String
  loading : Bool
  serializedTransaction : String
  secondSignerSignature : String
  secondSignerAddress : String
deriving DecidableEq

/-- The initial component state: no logs, not loading, all three
string states empty. -/
def initialState : ComponentState :=
  { logs := [], loading := false, serializedTransaction := ""
    secondSignerSignature := "", secondSignerAddress := "" }

/-- The decorated log entry `[${time}] ${msg}` built by `log`
(line 36). -/
def logMsg (now msg : String) : String :=
  "[" ++ now ++ "] " ++ msg

/-- Embedding of `log(msg)` (lines 34-37): append one decorated entry
to the log stream. -/
def pushLog (now : String) (s : ComponentState) (msg : String) : ComponentState :=
  { s with logs := s.logs ++ [logMsg now msg] }

/-- An external call issued by a step handler to the wallet adapter,
the chain SDK, or the network, with the arguments it received. -/
inductive ExtCall where
  | fetchScript
  | buildTransaction (sender : String) (secondarySigners : List String)
      (bytecode : Bytes) (expireTimestamp : Nat)
  | walletSign (transaction : Bytes)
  | walletSubmit (transaction : Bytes) (senderAuthenticator : Bytes)
      (additionalSignersAuthenticators : List Bytes)
  | waitForTransaction (transactionHash : String)
deriving DecidableEq

/-- Modelled from the spec: the message of the exception raised by the
SDK's hexadecimal parser on an invalid string (§6: "any non-success
response or malformed body is surfaced as a ... failure"); only its
content as an opaque string matters to the choreography. -/
def hexParseErrorMessage : String := "Invalid hexadecimal string"

/-- Environment of one `step1_CreateTransaction` invocation: the
connected account (if any), the wall-clock strings, and the outcomes
of the external operations the body performs, in source order — the
script fetch (lines 42-49), the interactive prompt (line 72), and the
multi-agent transaction construction plus BCS serialization
(lines 86-105, whose result is the constructed transaction's BCS
bytes).  An `Except.error` carries the thrown error's message. -/
structure Step1Env where
  account : Option String
  now : String
  nowEpoch : Nat
  fetchResult : Except String Bytes
  promptResult : Option String
  buildResult : Except String Bytes

/-- Embedding of `step1_CreateTransaction` (lines 52-119).  Returns
the post-invocation component state and the external calls issued. -/
def step1 (env : Step1Env) (s : ComponentState) : ComponentState × List ExtCall :=
  match env.account with
  | none => (pushLog env.now s "ERROR: No account connected", [])
  | some address =>
    let s1 := { s with loading := true, logs := [] }
    let s2 := pushLog env.now s1 "=== STEP 1: Create Transaction (First Sender) ==="
    let s3 := pushLog env.now s2 ("First sender (you): " ++ address)
    let s4 := pushLog env.now s3 "Loading transfer_two_by_two.mv script..."
    match env.fetchResult with
    | .error e =>
      ({ pushLog env.now s4 ("ERROR: " ++ e) with loading := false }, [.fetchScript])
    | .ok bytecode =>
      let s5 := pushLog env.now s4 ("Script loaded: " ++ toString bytecode.length ++ " bytes")
      match env.promptResult with
      | none =>
        ({ pushLog env.now s5 "ERROR: Second signer address required" with loading := false },
         [.fetchScript])
      | some secondSignerAddr =>
        if secondSignerAddr = "" then
          ({ pushLog env.now s5 "ERROR: Second signer address required" with loading := false },
           [.fetchScript])
        else
          let s6 := { s5 with secondSignerAddress := secondSignerAddr }
          let s7 := pushLog env.now s6 "Building multi-agent transaction (5 min expiration)..."
          match env.buildResult with
          | .error e =>
            ({ pushLog env.now s7 ("ERROR: " ++ e) with loading := false },
             [.fetchScript,
              .buildTransaction address [secondSignerAddr] bytecode (env.nowEpoch + 300)])
          | .ok txBytes =>
            let serializedTx := bcsToHexString txBytes
            let s8 := { s7 with serializedTransaction := serializedTx }
            let s9 := pushLog env.now s8 "Transaction created and serialized"
            let s10 := pushLog env.now s9 ("Serialized TX: " ++ strTake serializedTx 60 ++ "...")
            let s11 := pushLog env.now s10 ""
            let s12 := pushLog env.now s11 "Now switch wallet to second signer and click Step 2"
            ({ s12 with loading := false },
             [.fetchScript,
              .buildTransaction address [secondSignerAddr] bytecode (env.nowEpoch + 300)])

/-- Environment of one `step2_SecondSignerSign` invocation: the
connected account and the outcome of the wallet signature request
(lines 147-149, whose result is the authenticator's BCS bytes). -/
structure Step2Env where
  account : Option String
  now : String
  signResult : Except String Bytes

/-- Embedding of `step2_SecondSignerSign` (lines 122-170). -/
def step2 (env : Step2Env) (s : ComponentState) : ComponentState × List ExtCall :=
  match env.account with
  | none => (pushLog env.now s "ERROR: No account connected", [])
  | some address =>
    if s.serializedTransaction = "" then
      (pushLog env.now s "ERROR: No transaction to sign. Run Step 1 first.", [])
    else
      let s1 := { s with loading := true }
      let s2 := pushLog env.now s1 "=== STEP 2: Second Sender Signs ==="
      let s3 := pushLog env.now s2 ("Current wallet: " ++ address)
      match hexStringToBytes s.serializedTransaction with
      | none =>
        ({ pushLog env.now s3 ("ERROR: " ++ hexParseErrorMessage) with loading := false }, [])
      | some txBytes =>
        let s4 := pushLog env.now s3 "Transaction deserialized"
        let s5 := pushLog env.now s4 "Requesting wallet signature..."
        match env.signResult with
        | .error e =>
          ({ pushLog env.now s5 ("ERROR: " ++ e) with loading := false }, [.walletSign txBytes])
        | .ok authBytes =>
          let s6 := pushLog env.now s5 "Wallet signed successfully"
          let authenticatorBcsHex := bcsToHexString authBytes
          let authenticatorBcs :=
            if strStartsWith authenticatorBcsHex "0x" then authenticatorBcsHex
            else "0x" ++ authenticatorBcsHex
          let s7 := { s6 with secondSignerSignature := authenticatorBcs }
          let s8 := pushLog env.now s7 ("Serialized signature: " ++ strTake authenticatorBcs 60 ++ "...")
          let s9 := pushLog env.now s8 ""
          let s10 := pushLog env.now s9 "Now switch wallet back to first signer and click Step 3"
          ({ s10 with loading := false }, [.walletSign txBytes])

/-- Environment of one `step3_FirstSignerSubmit` invocation: the
connected account and the outcomes of the wallet signature request
(lines 208-210), the submission (lines 215-219, result: the
transaction hash), and the confirmation wait (lines 228-230, result:
the success flag). -/
structure Step3Env where
  account : Option String
  now : String
  signResult : Except String Bytes
  submitResult : Except String String
  waitResult : Except String Bool

/-- Embedding of `step3_FirstSignerSubmit` (lines 173-239). -/
def step3 (env : Step3Env) (s : ComponentState) : ComponentState × List ExtCall :=
  match env.account with
  | none => (pushLog env.now s "ERROR: No account connected", [])
  | some address =>
    if s.serializedTransaction = "" ∨ s.secondSignerSignature = "" then
      (pushLog env.now s
        "ERROR: Missing transaction or second signer signature. Complete Steps 1 and 2 first.", [])
    else
      let s1 := { s with loading := true }
      let s2 := pushLog env.now s1 "=== STEP 3: First Sender Signs & Submits ==="
      let s3 := pushLog env.now s2 ("Current wallet: " ++ address)
      match hexStringToBytes s.serializedTransaction with
      | none =>
        ({ pushLog env.now s3 ("ERROR: " ++ hexParseErrorMessage) with loading := false }, [])
      | some txBytes =>
        let s4 := pushLog env.now s3 "Transaction deserialized"
        let signatureHex :=
          if strStartsWith s.secondSignerSignature "0x" then strDrop s.secondSignerSignature 2
          else s.secondSignerSignature
        match hexStringToBytes signatureHex with
        | none =>
          ({ pushLog env.now s4 ("ERROR: " ++ hexParseErrorMessage) with loading := false }, [])
        | some reviewerAuthBytes =>
          let s5 := pushLog env.now s4 "Reviewer signature deserialized"
          let s6 := pushLog env.now s5 "Requesting wallet signature..."
          match env.signResult with
          | .error e =>
            ({ pushLog env.now s6 ("ERROR: " ++ e) with loading := false },
             [.walletSign txBytes])
          | .ok senderAuthBytes =>
            let s7 := pushLog env.now s6 "Wallet signed successfully"
            let s8 := pushLog env.now s7 "Submitting via wallet adapter submitTransaction..."
            match env.submitResult with
            | .error e =>
              ({ pushLog env.now s8 ("ERROR: " ++ e) with loading := false },
               [.walletSign txBytes,
                .walletSubmit txBytes senderAuthBytes [reviewerAuthBytes]])
            | .ok hash =>
              let s9 := pushLog env.now s8 ("SUCCESS! Transaction hash: " ++ hash)
              let s10 := pushLog env.now s9 "Waiting for confirmation..."
              match env.waitResult with
              | .error e =>
                ({ pushLog env.now s10 ("ERROR: " ++ e) with loading := false },
                 [.walletSign txBytes,
                  .walletSubmit txBytes senderAuthBytes [reviewerAuthBytes],
                  .waitForTransaction hash])
              | .ok success =>
                let s11 := pushLog env.now s10 ("Transaction confirmed: " ++ toString success)
                ({ s11 with loading := false },
                 [.walletSign txBytes,
                  .walletSubmit txBytes senderAuthBytes [reviewerAuthBytes],
                  .waitForTransaction hash])

/-- Both Relay Store slots (transaction, authenticator) are the same
in `s'` as in `s`. -/
def relayUnchanged (s s' : ComponentState) : Prop :=
  s'.serializedTransaction = s.serializedTransaction ∧
  s'.secondSignerSignature = s.secondSignerSignature

/-- A log message is an ERROR entry when it starts with `ERROR`, the
marker the component's renderer keys on (line 318). -/
def isErrorMessage (m : String) : Bool := strStartsWith m "ERROR"

/-- Exactly one entry was appended to the log stream, and it is an
ERROR entry. -/
def oneErrorAppended (now : String) (s s' : ComponentState) : Prop :=
  ∃ m, isErrorMessage m = true ∧ s'.logs = s.logs ++ [logMsg now m]

/-- The last entry of the resulting log stream is an ERROR entry. -/
def errorAppendedLast (now : String) (s' : ComponentState) : Prop :=
  ∃ pre m, isErrorMessage m = true ∧ s'.logs = pre ++ [logMsg now m]

/-- Whether an `Except` result is a success. -/
def exceptIsOk {ε α : Type} : Except ε α → Bool
  | .ok _ => true
  | .error _ => false

/-- A Step 1 run succeeds (reaches the end of its `try` block): an
account is connected, the script fetch, the prompt (with a non-empty
address) and the transaction construction all succeed. -/
def step1SucceedsB (env : Step1Env) : Bool :=
  match env.account, env.fetchResult, env.promptResult, env.buildResult with
  | some _, .ok _, some a, .ok _ => decide (a ≠ "")
  | _, _, _, _ => false

/-- A Step 1 run passes its precondition (an account is connected) but
fails somewhere in its body. -/
def step1FailsB (env : Step1Env) : Bool :=
  env.account.isSome && !step1SucceedsB env

/-- The transaction bytes produced by a successful Step 1 run. -/
def step1TxBytes (env : Step1Env) : Bytes :=
  match env.buildResult with
  | .ok b => b
  | .error _ => []

/-- A Step 2 run succeeds: account connected, transaction slot
non-empty and parseable, wallet signature granted. -/
def step2SucceedsB (env : Step2Env) (s : ComponentState) : Bool :=
  env.account.isSome && decide (s.serializedTransaction ≠ "") &&
  (hexStringToBytes s.serializedTransaction).isSome && exceptIsOk env.signResult

/-- A Step 2 run passes its preconditions but fails in its body. -/
def step2FailsB (env : Step2Env) (s : ComponentState) : Bool :=
  env.account.isSome && decide (s.serializedTransaction ≠ "") && !step2SucceedsB env s

/-- The hexadecimal body Step 3 extracts from the stored authenticator
value (lines 197-199): strip one `0x` prefix when present. -/
def step3AuthHex (v : String) : String :=
  if strStartsWith v "0x" then strDrop v 2 else v

/-- A Step 3 run succeeds: account connected, both slots non-empty and
parseable, wallet signature granted, submission accepted, confirmation
reached. -/
def step3SucceedsB (env : Step3Env) (s : ComponentState) : Bool :=
  env.account.isSome && decide (s.serializedTransaction ≠ "") &&
  decide (s.secondSignerSignature ≠ "") &&
  (hexStringToBytes s.serializedTransaction).isSome &&
  (hexStringToBytes (step3AuthHex s.secondSignerSignature)).isSome &&
  exceptIsOk env.signResult && exceptIsOk env.submitResult && exceptIsOk env.waitResult

/-- A Step 3 run passes its preconditions but fails in its body. -/
def step3FailsB (env : Step3Env) (s : ComponentState) : Bool :=
  env.account.isSome && decide (s.serializedTransaction ≠ "") &&
  decide (s.secondSignerSignature ≠ "") && !step3SucceedsB env s

theorem charsStartWith_append (p : List Char) :
    ∀ l m : List Char, charsStartWith l p = true → charsStartWith (l ++ m) p = true := by
  induction p with
  | nil => intro l m _; exact charsStartWith_nil _
  | cons c ps ih =>
    intro l m h
    cases l with
    | nil => simp [charsStartWith] at h
    | cons a as =>
      simp only [charsStartWith, Bool.and_eq_true] at h
      simp only [List.cons_append, charsStartWith, Bool.and_eq_true]
      exact ⟨h.1, ih as m h.2⟩

theorem strStartsWith_append_left (s t pat : String)
    (h : strStartsWith s pat = true) : strStartsWith (s ++ t) pat = true := by
  have hd : (s ++ t).data = s.data ++ t.data := String.data_append s t
  simp only [strStartsWith, hd]
  exact charsStartWith_append _ _ _ h

theorem isErrorMessage_ERROR_append (t : String) :
    isErrorMessage ("ERROR: " ++ t) = true :=
  strStartsWith_append_left "ERROR: " t "ERROR" (by decide)

/-- C1: for each of the three steps, invoking the step while its
precondition is unmet (no connected Session Identity, or the required
Relay Store slot(s) empty) leaves both Relay Store slots unchanged,
appends exactly one ERROR entry to the Log Stream, and issues no
wallet or SDK call. -/
theorem unmet_precondition_has_no_effects :
    (∀ (env : Step1Env) (s : ComponentState), env.account = none →
      relayUnchanged s (step1 env s).1 ∧ oneErrorAppended env.now s (step1 env s).1 ∧
      (step1 env s).2 = []) ∧
    (∀ (env : Step2Env) (s : ComponentState),
      env.account = none ∨ s.serializedTransaction = "" →
      relayUnchanged s (step2 env s).1 ∧ oneErrorAppended env.now s (step2 env s).1 ∧
      (step2 env s).2 = []) ∧
    (∀ (env : Step3Env) (s : ComponentState),
      env.account = none ∨ s.serializedTransaction = "" ∨ s.secondSignerSignature = "" →
      relayUnchanged s (step3 env s).1 ∧ oneErrorAppended env.now s (step3 env s).1 ∧
      (step3 env s).2 = []) := by
  refine ⟨?_, ?_, ?_⟩
  · intro env s h
    obtain ⟨acc, now, ne, fr, pr, br⟩ := env
    cases h
    exact ⟨⟨rfl, rfl⟩, ⟨"ERROR: No account connected", by decide, rfl⟩, rfl⟩
  · intro env s h
    obtain ⟨acc, now, sr⟩ := env
    rcases h with h | h
    · cases h
      exact ⟨⟨rfl, rfl⟩, ⟨"ERROR: No account connected", by decide, rfl⟩, rfl⟩
    · cases acc with
      | none =>
        exact ⟨⟨rfl, rfl⟩, ⟨"ERROR: No account connected", by decide, rfl⟩, rfl⟩
      | some a =>
        have hstep : step2 ⟨some a, now, sr⟩ s =
            (pushLog now s "ERROR: No transaction to sign. Run Step 1 first.", []) := by
          simp [step2, h]
        rw [hstep]
        exact ⟨⟨rfl, rfl⟩,
          ⟨"ERROR: No transaction to sign. Run Step 1 first.", by decide, rfl⟩, rfl⟩
  · intro env s h
    obtain ⟨acc, now, sg, sb, wr⟩ := env
    cases acc with
    | none =>
      exact ⟨⟨rfl, rfl⟩, ⟨"ERROR: No account connected", by decide, rfl⟩, rfl⟩
    | some a =>
      have h' : s.serializedTransaction = "" ∨ s.secondSignerSignature = "" := by
        rcases h with h | h
        · exact absurd h (by simp)
        · exact h
      have hstep : step3 ⟨some a, now, sg, sb, wr⟩ s =
          (pushLog now s
            "ERROR: Missing transaction or second signer signature. Complete Steps 1 and 2 first.",
           []) := by
        simp [step3, h']
      rw [hstep]
      exact ⟨⟨rfl, rfl⟩,
        ⟨"ERROR: Missing transaction or second signer signature. Complete Steps 1 and 2 first.",
         by decide, rfl⟩, rfl⟩

/-- A Step 1 environment with no connected account. -/
def cNoAccountStep1 : Step1Env :=
  { account := none, now := "t", nowEpoch := 0, fetchResult := .error "e"
    promptResult := none, buildResult := .error "e" }

/-- A Step 2 environment with a connected account (used against an
empty transaction slot). -/
def cStep2Conn : Step2Env :=
  { account := some "0xAAA", now := "t", signResult := .error "e" }

/-- A Step 3 environment with a connected account (used against empty
Relay Store slots). -/
def cStep3Conn : Step3Env :=
  { account := some "0xAAA", now := "t", signResult := .error "e"
    submitResult := .error "e", waitResult := .error "e" }

/-- Witness for C1 at concrete inputs: Step 1 with no account, Steps 2
and 3 against the empty initial Relay Store. -/
theorem unmet_precondition_has_no_effects_witness :
    (relayUnchanged initialState (step1 cNoAccountStep1 initialState).1 ∧
     oneErrorAppended cNoAccountStep1.now initialState (step1 cNoAccountStep1 initialState).1 ∧
     (step1 cNoAccountStep1 initialState).2 = []) ∧
    (relayUnchanged initialState (step2 cStep2Conn initialState).1 ∧
     oneErrorAppended cStep2Conn.now initialState (step2 cStep2Conn initialState).1 ∧
     (step2 cStep2Conn initialState).2 = []) ∧
    (relayUnchanged initialState (step3 cStep3Conn initialState).1 ∧
     oneErrorAppended cStep3Conn.now initialState (step3 cStep3Conn initialState).1 ∧
     (step3 cStep3Conn initialState).2 = []) :=
  ⟨unmet_precondition_has_no_effects.1 cNoAccountStep1 initialState rfl,
   unmet_precondition_has_no_effects.2.1 cStep2Conn initialState (Or.inr rfl),
   unmet_precondition_has_no_effects.2.2 cStep3Conn initialState (Or.inr (Or.inl rfl))⟩

/-- C2: every failure raised during a step's body (fetch,
construction, encoding, signing, submission, confirmation) is caught
inside the step, an ERROR entry is appended to the Log Stream, and
neither Relay Store slot is written on that failing run.  That no
exception propagates and no structured error value is returned is
embedded in the type of the step functions themselves: they are total
and return only the new state and the issued calls. -/
theorem step_failures_caught_and_swallowed :
    (∀ (env : Step1Env) (s : ComponentState), step1FailsB env = true →
      relayUnchanged s (step1 env s).1 ∧ errorAppendedLast env.now (step1 env s).1) ∧
    (∀ (env : Step2Env) (s : ComponentState), step2FailsB env s = true →
      relayUnchanged s (step2 env s).1 ∧ errorAppendedLast env.now (step2 env s).1) ∧
    (∀ (env : Step3Env) (s : ComponentState), step3FailsB env s = true →
      relayUnchanged s (step3 env s).1 ∧ errorAppendedLast env.now (step3 env s).1) := by
  refine ⟨?_, ?_, ?_⟩
  · intro env s h
    obtain ⟨acc, now, ne, fr, pr, br⟩ := env
    cases acc with
    | none => simp [step1FailsB] at h
    | some a =>
      cases fr with
      | error e =>
        exact ⟨⟨rfl, rfl⟩, _, "ERROR: " ++ e, isErrorMessage_ERROR_append e, rfl⟩
      | ok bc =>
        cases pr with
        | none =>
          exact ⟨⟨rfl, rfl⟩, _, "ERROR: Second signer address required", by decide, rfl⟩
        | some a2 =>
          by_cases ha : a2 = ""
          · subst ha
            exact ⟨⟨rfl, rfl⟩, _, "ERROR: Second signer address required", by decide, rfl⟩
          · cases br with
            | error e =>
              simp only [step1, ha, if_neg]
              exact ⟨⟨rfl, rfl⟩, _, "ERROR: " ++ e, isErrorMessage_ERROR_append e, rfl⟩
            | ok tb => simp [step1FailsB, step1SucceedsB, ha] at h
  · intro env s h
    obtain ⟨acc, now, sr⟩ := env
    cases acc with
    | none => simp [step2FailsB] at h
    | some a =>
      have hne : ¬ s.serializedTransaction = "" := by
        simp only [step2FailsB, Bool.and_eq_true, decide_eq_true_eq] at h
        exact h.1.2
      cases hparse : hexStringToBytes s.serializedTransaction with
      | none =>
        simp only [step2, if_neg hne, hparse]
        exact ⟨⟨rfl, rfl⟩, _, "ERROR: " ++ hexParseErrorMessage,
          isErrorMessage_ERROR_append hexParseErrorMessage, rfl⟩
      | some tb =>
        cases sr with
        | error e =>
          simp only [step2, if_neg hne, hparse]
          exact ⟨⟨rfl, rfl⟩, _, "ERROR: " ++ e, isErrorMessage_ERROR_append e, rfl⟩
        | ok ab =>
          simp [step2FailsB, step2SucceedsB, hne, hparse, exceptIsOk] at h
  · intro env s h
    obtain ⟨acc, now, sg, sb, wr⟩ := env
    cases acc with
    | none => simp [step3FailsB] at h
    | some a =>
      have hne : ¬ (s.serializedTransaction = "" ∨ s.secondSignerSignature = "") := by
        simp only [step3FailsB, Bool.and_eq_true, decide_eq_true_eq] at h
        rintro (h1 | h2)
        · exact h.1.1.2 h1
        · exact h.1.2 h2
      cases hparse : hexStringToBytes s.serializedTransaction with
      | none =>
        simp only [step3, if_neg hne, hparse]
        exact ⟨⟨rfl, rfl⟩, _, "ERROR: " ++ hexParseErrorMessage,
          isErrorMessage_ERROR_append hexParseErrorMessage, rfl⟩
      | some tb =>
        cases hparse2 : hexStringToBytes
            (if strStartsWith s.secondSignerSignature "0x" then
              strDrop s.secondSignerSignature 2
             else s.secondSignerSignature) with
        | none =>
          simp only [step3, if_neg hne, hparse, hparse2]
          exact ⟨⟨rfl, rfl⟩, _, "ERROR: " ++ hexParseErrorMessage,
            isErrorMessage_ERROR_append hexParseErrorMessage, rfl⟩
        | some ab =>
          cases sg with
          | error e =>
            simp only [step3, if_neg hne, hparse, hparse2]
            exact ⟨⟨rfl, rfl⟩, _, "ERROR: " ++ e, isErrorMessage_ERROR_append e, rfl⟩
          | ok sab =>
            cases sb with
            | error e =>
              simp only [step3, if_neg hne, hparse, hparse2]
              exact ⟨⟨rfl, rfl⟩, _, "ERROR: " ++ e, isErrorMessage_ERROR_append e, rfl⟩
            | ok hash =>
              cases wr with
              | error e =>
                simp only [step3, if_neg hne, hparse, hparse2]
                exact ⟨⟨rfl, rfl⟩, _, "ERROR: " ++ e, isErrorMessage_ERROR_append e, rfl⟩
              | ok success =>
                simp [step3FailsB, step3SucceedsB, step3AuthHex, hne, hparse, hparse2,
                  exceptIsOk] at h

/-- A Step 1 environment whose script fetch fails. -/
def cFetchFailStep1 : Step1Env :=
  { account := some "0xAAA", now := "t", nowEpoch := 0
    fetchResult := .error "Failed to fetch", promptResult := none, buildResult := .error "e" }

/-- A component state whose transaction slot is populated and whose
authenticator slot is empty. -/
def txOnlyState : ComponentState :=
  { logs := [], loading := false, serializedTransaction := "0xab"
    secondSignerSignature := "", secondSignerAddress := "" }

/-- A component state with both Relay Store slots populated. -/
def bothSlotsState : ComponentState :=
  { logs := [], loading := false, serializedTransaction := "0xab"
    secondSignerSignature := "0xcd", secondSignerAddress := "0xBBB" }

/-- Witness for C2 at concrete inputs: a failing fetch in Step 1, and
failing wallet signature requests in Steps 2 and 3. -/
theorem step_failures_caught_and_swallowed_witness :
    (relayUnchanged initialState (step1 cFetchFailStep1 initialState).1 ∧
     errorAppendedLast cFetchFailStep1.now (step1 cFetchFailStep1 initialState).1) ∧
    (relayUnchanged txOnlyState (step2 cStep2Conn txOnlyState).1 ∧
     errorAppendedLast cStep2Conn.now (step2 cStep2Conn txOnlyState).1) ∧
    (relayUnchanged bothSlotsState (step3 cStep3Conn bothSlotsState).1 ∧
     errorAppendedLast cStep3Conn.now (step3 cStep3Conn bothSlotsState).1) :=
  ⟨step_failures_caught_and_swallowed.1 cFetchFailStep1 initialState (by decide),
   step_failures_caught_and_swallowed.2.1 cStep2Conn txOnlyState (by decide),
   step_failures_caught_and_swallowed.2.2 cStep3Conn bothSlotsState (by decide)⟩

theorem step1_auth_unchanged (env : Step1Env) (s : ComponentState) :
    (step1 env s).1.secondSignerSignature = s.secondSignerSignature := by
  obtain ⟨acc, now, ne, fr, pr, br⟩ := env
  cases acc with
  | none => rfl
  | some a =>
    cases fr with
    | error e => rfl
    | ok bc =>
      cases pr with
      | none => rfl
      | some a2 =>
        by_cases ha : a2 = ""
        · simp [step1, ha, pushLog]
        · cases br with
          | error e => simp [step1, ha, pushLog]
          | ok tb => simp [step1, ha, pushLog]

theorem step1_tx_of_succeeds (env : Step1Env) (s : ComponentState)
    (h : step1SucceedsB env = true) :
    (step1 env s).1.serializedTransaction = bcsToHexString (step1TxBytes env) := by
  obtain ⟨acc, now, ne, fr, pr, br⟩ := env
  cases acc with
  | none => simp [step1SucceedsB] at h
  | some a =>
    cases fr with
    | error e => simp [step1SucceedsB] at h
    | ok bc =>
      cases pr with
      | none => simp [step1SucceedsB] at h
      | some a2 =>
        cases br with
        | error e => simp [step1SucceedsB] at h
        | ok tb =>
          have ha : ¬ a2 = "" := by
            simp only [step1SucceedsB, decide_eq_true_eq] at h
            exact h
          simp [step1, ha, pushLog, step1TxBytes]

theorem step1_tx_of_fails (env : Step1Env) (s : ComponentState)
    (h : step1SucceedsB env = false) :
    (step1 env s).1.serializedTransaction = s.serializedTransaction := by
  obtain ⟨acc, now, ne, fr, pr, br⟩ := env
  cases acc with
  | none => rfl
  | some a =>
    cases fr with
    | error e => rfl
    | ok bc =>
      cases pr with
      | none => rfl
      | some a2 =>
        by_cases ha : a2 = ""
        · simp [step1, ha, pushLog]
        · cases br with
          | error e => simp [step1, ha, pushLog]
          | ok tb => simp [step1SucceedsB, ha] at h

theorem step2_tx_unchanged (env : Step2Env) (s : ComponentState) :
    (step2 env s).1.serializedTransaction = s.serializedTransaction := by
  obtain ⟨acc, now, sr⟩ := env
  cases acc with
  | none => rfl
  | some a =>
    by_cases hne : s.serializedTransaction = ""
    · simp [step2, hne, pushLog]
    · cases hparse : hexStringToBytes s.serializedTransaction with
      | none => simp [step2, hne, hparse, pushLog]
      | some tb =>
        cases sr with
        | error e => simp [step2, hne, hparse, pushLog]
        | ok ab => simp [step2, hne, hparse, pushLog]

theorem step2_auth_cases (env : Step2Env) (s : ComponentState) :
    (step2 env s).1.secondSignerSignature = s.secondSignerSignature ∨
    (¬ s.serializedTransaction = "" ∧
      ∃ b : Bytes, (step2 env s).1.secondSignerSignature = bcsToHexString b) := by
  obtain ⟨acc, now, sr⟩ := env
  cases acc with
  | none => exact Or.inl rfl
  | some a =>
    by_cases hne : s.serializedTransaction = ""
    · exact Or.inl (by simp [step2, hne, pushLog])
    · cases hparse : hexStringToBytes s.serializedTransaction with
      | none => exact Or.inl (by simp [step2, hne, hparse, pushLog])
      | some tb =>
        cases sr with
        | error e => exact Or.inl (by simp [step2, hne, hparse, pushLog])
        | ok ab =>
          refine Or.inr ⟨hne, ab, ?_⟩
          simp [step2, hne, hparse, pushLog, strStartsWith_0x_append, bcsToHexString]

theorem step3_relay_unchanged (env : Step3Env) (s : ComponentState) :
    relayUnchanged s (step3 env s).1 := by
  obtain ⟨acc, now, sg, sb, wr⟩ := env
  cases acc with
  | none => exact ⟨rfl, rfl⟩
  | some a =>
    by_cases hne : s.serializedTransaction = "" ∨ s.secondSignerSignature = ""
    · simp only [step3, if_pos hne]
      exact ⟨rfl, rfl⟩
    · cases hparse : hexStringToBytes s.serializedTransaction with
      | none =>
        simp only [step3, if_neg hne, hparse]
        exact ⟨rfl, rfl⟩
      | some tb =>
        cases hparse2 : hexStringToBytes
            (if strStartsWith s.secondSignerSignature "0x" then
              strDrop s.secondSignerSignature 2
             else s.secondSignerSignature) with
        | none =>
          simp only [step3, if_neg hne, hparse, hparse2]
          exact ⟨rfl, rfl⟩
        | some ab =>
          cases sg with
          | error e =>
            simp only [step3, if_neg hne, hparse, hparse2]
            exact ⟨rfl, rfl⟩
          | ok sab =>
            cases sb with
            | error e =>
              simp only [step3, if_neg hne, hparse, hparse2]
              exact ⟨rfl, rfl⟩
            | ok hash =>
              cases wr with
              | error e =>
                simp only [step3, if_neg hne, hparse, hparse2]
                exact ⟨rfl, rfl⟩
              | ok success =>
                simp only [step3, if_neg hne, hparse, hparse2]
                exact ⟨rfl, rfl⟩

theorem bcsToHexString_ne_empty (b : Bytes) : bcsToHexString b ≠ "" := by
  intro h
  have hd := congrArg String.data h
  rw [bcsToHexString, data_0x_append] at hd
  exact List.noConfusion hd

/-- A fully successful Step 1 environment. -/
def cSuccessStep1 : Step1Env :=
  { account := some "0xAAA", now := "t", nowEpoch := 7, fetchResult := .ok []
    promptResult := some "0xBBB", buildResult := .ok [171] }

/-- C3 counterexample: running Step 1 again, successfully, over a state
holding a completed prior run (both Relay Store slots populated) does
NOT reset the flow: the stale Step-2 authenticator `0xcd` from the
prior run is still in the authenticator slot afterwards, so the Relay
Store does not hold only artifacts of the new run. -/
theorem step1_rerun_keeps_stale_auth_counterexample :
    step1SucceedsB cSuccessStep1 = true ∧
    (step1 cSuccessStep1 bothSlotsState).1.secondSignerSignature = "0xcd" ∧
    ("0xcd" : String) ≠ "" := by decide

/-- C3 (amended): invoking Step 1 again after a completed or partially
completed run overwrites the transaction slot with the new run's
artifact, but does not clear the authenticator slot: a stale Step-2
authenticator from the previous run remains stored and therefore
remains available to Step 3. -/
theorem step1_rerun_overwrites_tx_keeps_auth :
    ∀ (env : Step1Env) (s : ComponentState), step1SucceedsB env = true →
      (step1 env s).1.serializedTransaction = bcsToHexString (step1TxBytes env) ∧
      (step1 env s).1.secondSignerSignature = s.secondSignerSignature :=
  fun env s h => ⟨step1_tx_of_succeeds env s h, step1_auth_unchanged env s⟩

/-- Witness for the amended C3 at a concrete prior state with both
slots populated. -/
theorem step1_rerun_overwrites_tx_keeps_auth_witness :
    (step1 cSuccessStep1 bothSlotsState).1.serializedTransaction =
      bcsToHexString (step1TxBytes cSuccessStep1) ∧
    (step1 cSuccessStep1 bothSlotsState).1.secondSignerSignature =
      bothSlotsState.secondSignerSignature :=
  step1_rerun_overwrites_tx_keeps_auth cSuccessStep1 bothSlotsState (by decide)

/-- A component state whose log stream already holds one entry. -/
def preLoggedState : ComponentState :=
  { logs := ["old"], loading := false, serializedTransaction := ""
    secondSignerSignature := "", secondSignerAddress := "" }

/-- C4 counterexample: Step 1 invoked with a connected account does
not extend the existing log stream — it clears it first (the `clearLogs()`
call at line 59), so the resulting stream is not the old stream plus
appended entries. -/
theorem log_stream_append_only_counterexample :
    ¬ ∃ t, (step1 cSuccessStep1 preLoggedState).1.logs = preLoggedState.logs ++ t := by
  rintro ⟨t, h⟩
  have h1 : (preLoggedState.logs ++ t).head? = some "old" := rfl
  rw [← h] at h1
  exact absurd h1 (by decide)

/-- C4 (amended): Steps 2 and 3 only append to the Log Stream, and so
does Step 1 when no account is connected; but Step 1 with a connected
account first clears the Log Stream, discarding previously appended
entries (its resulting stream is independent of the prior one), before
appending the new run's entries. -/
theorem log_stream_appends_except_step1_clears :
    (∀ (env : Step2Env) (s : ComponentState), ∃ t, (step2 env s).1.logs = s.logs ++ t) ∧
    (∀ (env : Step3Env) (s : ComponentState), ∃ t, (step3 env s).1.logs = s.logs ++ t) ∧
    (∀ (env : Step1Env) (s : ComponentState), env.account = none →
      ∃ t, (step1 env s).1.logs = s.logs ++ t) ∧
    (∀ (env : Step1Env) (s : ComponentState), env.account.isSome = true →
      (step1 env s).1.logs = (step1 env { s with logs := [] }).1.logs) := by
  refine ⟨?_, ?_, ?_, ?_⟩
  · intro env s
    obtain ⟨acc, now, sr⟩ := env
    cases acc with
    | none => exact ⟨_, rfl⟩
    | some a =>
      by_cases hne : s.serializedTransaction = ""
      · exact ⟨_, by simp [step2, hne, pushLog]; rfl⟩
      · cases hparse : hexStringToBytes s.serializedTransaction with
        | none => exact ⟨_, by simp [step2, hne, hparse, pushLog]; rfl⟩
        | some tb =>
          cases sr with
          | error e => exact ⟨_, by simp [step2, hne, hparse, pushLog]; rfl⟩
          | ok ab => exact ⟨_, by simp [step2, hne, hparse, pushLog]; rfl⟩
  · intro env s
    obtain ⟨acc, now, sg, sb, wr⟩ := env
    cases acc with
    | none => exact ⟨_, rfl⟩
    | some a =>
      by_cases hne : s.serializedTransaction = "" ∨ s.secondSignerSignature = ""
      · exact ⟨_, by simp [step3, hne, pushLog]; rfl⟩
      · cases hparse : hexStringToBytes s.serializedTransaction with
        | none => exact ⟨_, by simp [step3, hne, hparse, pushLog]; rfl⟩
        | some tb =>
          cases hparse2 : hexStringToBytes
              (if strStartsWith s.secondSignerSignature "0x" then
                strDrop s.secondSignerSignature 2
               else s.secondSignerSignature) with
          | none => exact ⟨_, by simp [step3, hne, hparse, hparse2, pushLog]; rfl⟩
          | some ab =>
            cases sg with
            | error e => exact ⟨_, by simp [step3, hne, hparse, hparse2, pushLog]; rfl⟩
            | ok sab =>
              cases sb with
              | error e => exact ⟨_, by simp [step3, hne, hparse, hparse2, pushLog]; rfl⟩
              | ok hash =>
                cases wr with
                | error e => exact ⟨_, by simp [step3, hne, hparse, hparse2, pushLog]; rfl⟩
                | ok success => exact ⟨_, by simp [step3, hne, hparse, hparse2, pushLog]; rfl⟩
  · intro env s h
    obtain ⟨acc, now, ne, fr, pr, br⟩ := env
    cases h
    exact ⟨_, rfl⟩
  · intro env s h
    obtain ⟨acc, now, ne, fr, pr, br⟩ := env
    cases acc with
    | none => simp at h
    | some a =>
      cases fr with
      | error e => rfl
      | ok bc =>
        cases pr with
        | none => rfl
        | some a2 =>
          by_cases ha : a2 = ""
          · simp [step1, ha]
          · cases br with
            | error e => simp [step1, ha]
            | ok tb => simp [step1, ha]

/-- Witness for the amended C4 at concrete inputs: appends for Steps 2
and 3 and for Step 1 without an account, and the clearing behavior of
Step 1 with an account over a pre-populated log stream. -/
theorem log_stream_appends_except_step1_clears_witness :
    (∃ t, (step2 cStep2Conn initialState).1.logs = initialState.logs ++ t) ∧
    (∃ t, (step3 cStep3Conn initialState).1.logs = initialState.logs ++ t) ∧
    (∃ t, (step1 cNoAccountStep1 preLoggedState).1.logs = preLoggedState.logs ++ t) ∧
    (step1 cSuccessStep1 preLoggedState).1.logs =
      (step1 cSuccessStep1 { preLoggedState with logs := [] }).1.logs :=
  ⟨log_stream_appends_except_step1_clears.1 cStep2Conn initialState,
   log_stream_appends_except_step1_clears.2.1 cStep3Conn initialState,
   log_stream_appends_except_step1_clears.2.2.1 cNoAccountStep1 preLoggedState rfl,
   log_stream_appends_except_step1_clears.2.2.2 cSuccessStep1 preLoggedState (by decide)⟩

/-- C5 counterexample: a Step 1 run that fails (fetch failure) over a
state whose transaction slot was already populated by an earlier run
ends with the transaction slot non-empty and the authenticator slot
unchanged, yet the run did not succeed: the claimed equivalence fails
in the backward direction on non-fresh runs. -/
theorem step1_success_iff_counterexample :
    step1SucceedsB cFetchFailStep1 = false ∧
    (step1 cFetchFailStep1 txOnlyState).1.serializedTransaction ≠ "" ∧
    (step1 cFetchFailStep1 txOnlyState).1.secondSignerSignature =
      txOnlyState.secondSignerSignature := by decide

/-- C5 (amended): on a fresh run — transaction slot empty beforehand —
Step 1 succeeds if and only if afterwards the transaction slot is
non-empty and the authenticator slot is unchanged; and on success the
transaction slot holds the hexadecimal serialization of the
constructed transaction. -/
theorem step1_success_iff_tx_populated_fresh :
    ∀ (env : Step1Env) (s : ComponentState), s.serializedTransaction = "" →
      (step1SucceedsB env = true ↔
        ((step1 env s).1.serializedTransaction ≠ "" ∧
         (step1 env s).1.secondSignerSignature = s.secondSignerSignature)) ∧
      (step1SucceedsB env = true →
        (step1 env s).1.serializedTransaction = bcsToHexString (step1TxBytes env)) := by
  intro env s hfresh
  refine ⟨⟨?_, ?_⟩, fun h => step1_tx_of_succeeds env s h⟩
  · intro h
    refine ⟨?_, step1_auth_unchanged env s⟩
    rw [step1_tx_of_succeeds env s h]
    exact bcsToHexString_ne_empty _
  · rintro ⟨h1, _⟩
    cases hsb : step1SucceedsB env with
    | true => rfl
    | false =>
      rw [step1_tx_of_fails env s hsb, hfresh] at h1
      exact absurd rfl h1

/-- Witness for the amended C5 at a successful concrete run from the
fresh initial state. -/
theorem step1_success_iff_tx_populated_fresh_witness :
    (step1SucceedsB cSuccessStep1 = true ↔
      ((step1 cSuccessStep1 initialState).1.serializedTransaction ≠ "" ∧
       (step1 cSuccessStep1 initialState).1.secondSignerSignature =
         initialState.secondSignerSignature)) ∧
    (step1SucceedsB cSuccessStep1 = true →
      (step1 cSuccessStep1 initialState).1.serializedTransaction =
        bcsToHexString (step1TxBytes cSuccessStep1)) :=
  step1_success_iff_tx_populated_fresh cSuccessStep1 initialState rfl

theorem strStartsWith_bytesToHexString (a : Bytes) :
    strStartsWith (bytesToHexString a) "0x" = false := by
  have hx : ∀ d : Fin 16, (decide (hexDigitToChar d = 'x')) = false := by decide
  cases a with
  | nil => rfl
  | cons b bs =>
    show charsStartWith (byteToHexChars b ++ bytesToHexChars bs) ['0', 'x'] = false
    simp only [byteToHexChars, List.cons_append, charsStartWith]
    rw [hx]
    simp

theorem hexStringToBytes_bytesToHexString (a : Bytes) :
    hexStringToBytes (bytesToHexString a) = some a := by
  simp only [hexStringToBytes, strStartsWith_bytesToHexString, Bool.false_eq_true,
    if_false]
  exact decodeHexChars_bytesToHexChars a

theorem step2_ok_effects (env : Step2Env) (s : ComponentState) (p : String) (a txb : Bytes)
    (hacc : env.account = some p) (hne : s.serializedTransaction ≠ "")
    (hparse : hexStringToBytes s.serializedTransaction = some txb)
    (hsign : env.signResult = .ok a) :
    (step2 env s).1.secondSignerSignature = bcsToHexString a ∧
    (step2 env s).1.serializedTransaction = s.serializedTransaction ∧
    (step2 env s).2 = [.walletSign txb] := by
  obtain ⟨acc, now, sr⟩ := env
  cases hacc
  cases hsign
  refine ⟨?_, ?_, ?_⟩ <;>
    simp [step2, hne, hparse, pushLog, bcsToHexString, strStartsWith_0x_append]

theorem step3_calls_of_auth (env : Step3Env) (s : ComponentState) (p : String)
    (txb ab sab : Bytes)
    (hacc : env.account = some p)
    (hne : s.serializedTransaction ≠ "")
    (htx : hexStringToBytes s.serializedTransaction = some txb)
    (hauth : s.secondSignerSignature = bcsToHexString ab)
    (hsign : env.signResult = .ok sab) :
    (step3 env s).2 = [.walletSign txb, .walletSubmit txb sab [ab]] ∨
    ∃ hash, (step3 env s).2 =
      [.walletSign txb, .walletSubmit txb sab [ab], .waitForTransaction hash] := by
  obtain ⟨acc, now, sg, sb, wr⟩ := env
  cases hacc
  cases hsign
  have hne3 : ¬ (s.serializedTransaction = "" ∨ s.secondSignerSignature = "") := by
    rintro (h | h)
    · exact hne h
    · rw [hauth] at h
      exact bcsToHexString_ne_empty ab h
  have hauthparse :
      hexStringToBytes
        (if strStartsWith s.secondSignerSignature "0x" then strDrop s.secondSignerSignature 2
         else s.secondSignerSignature) = some ab := by
    rw [hauth, bcsToHexString, strStartsWith_0x_append, if_pos rfl, strDrop_0x_append]
    exact hexStringToBytes_bytesToHexString ab
  cases sb with
  | error e =>
    left
    simp [step3, hne3, htx, hauthparse]
  | ok hash =>
    right
    refine ⟨hash, ?_⟩
    cases wr with
    | error e => simp [step3, hne3, htx, hauthparse]
    | ok success => simp [step3, hne3, htx, hauthparse]

/-- C6: invoking Step 2 twice in succession (both times with the
transaction slot non-empty, parseable, and a connected session, and
with the wallet granting signatures `a1` then `a2`) leaves the
authenticator slot holding the second signature's serialized
authenticator, and a subsequent Step 3 (with a connected session and a
granted sender signature) submits exactly that second authenticator:
every submission call it issues carries `[a2]` as the additional
signers' authenticators. -/
theorem step2_twice_then_step3_submits_second :
    ∀ (e1 e2 : Step2Env) (e3 : Step3Env) (s : ComponentState) (a1 a2 sab txb : Bytes),
      e1.account.isSome = true → e2.account.isSome = true → e3.account.isSome = true →
      e1.signResult = .ok a1 → e2.signResult = .ok a2 → e3.signResult = .ok sab →
      s.serializedTransaction ≠ "" →
      hexStringToBytes s.serializedTransaction = some txb →
      (step2 e2 (step2 e1 s).1).1.secondSignerSignature = bcsToHexString a2 ∧
      (ExtCall.walletSubmit txb sab [a2]) ∈ (step3 e3 (step2 e2 (step2 e1 s).1).1).2 ∧
      (∀ tx' sa' add, (ExtCall.walletSubmit tx' sa' add) ∈
          (step3 e3 (step2 e2 (step2 e1 s).1).1).2 → add = [a2]) := by
  intro e1 e2 e3 s a1 a2 sab txb hs1 hs2 hs3 hg1 hg2 hg3 hne hparse
  rw [Option.isSome_iff_exists] at hs1 hs2 hs3
  obtain ⟨p1, hp1⟩ := hs1
  obtain ⟨p2, hp2⟩ := hs2
  obtain ⟨p3, hp3⟩ := hs3
  have h1 := step2_ok_effects e1 s p1 a1 txb hp1 hne hparse hg1
  have hne1 : (step2 e1 s).1.serializedTransaction ≠ "" := by
    rw [h1.2.1]; exact hne
  have hparse1 : hexStringToBytes (step2 e1 s).1.serializedTransaction = some txb := by
    rw [h1.2.1]; exact hparse
  have h2 := step2_ok_effects e2 (step2 e1 s).1 p2 a2 txb hp2 hne1 hparse1 hg2
  refine ⟨h2.1, ?_, ?_⟩
  · have h3 := step3_calls_of_auth e3 (step2 e2 (step2 e1 s).1).1 p3 txb a2 sab hp3
      (by rw [h2.2.1]; exact hne1) (by rw [h2.2.1]; exact hparse1) h2.1 hg3
    rcases h3 with h3 | ⟨hash, h3⟩ <;> rw [h3] <;> simp
  · intro tx' sa' add hmem
    have h3 := step3_calls_of_auth e3 (step2 e2 (step2 e1 s).1).1 p3 txb a2 sab hp3
      (by rw [h2.2.1]; exact hne1) (by rw [h2.2.1]; exact hparse1) h2.1 hg3
    rcases h3 with h3 | ⟨hash, h3⟩ <;> rw [h3] at hmem <;>
      simp at hmem <;> exact hmem.2.2

/-- A Step 2 environment granting authenticator bytes `[1]`. -/
def cStep2SignA : Step2Env :=
  { account := some "0xBBB", now := "t", signResult := .ok [1] }

/-- A Step 2 environment granting authenticator bytes `[2]`. -/
def cStep2SignB : Step2Env :=
  { account := some "0xBBB", now := "t", signResult := .ok [2] }

/-- A Step 3 environment granting a sender authenticator and accepting
the submission. -/
def cStep3Sign : Step3Env :=
  { account := some "0xAAA", now := "t", signResult := .ok [3]
    submitResult := .ok "0xhash", waitResult := .ok true }

/-- Witness for C6 at concrete inputs: two Step 2 runs granting `[1]`
then `[2]` over the transaction `0xab`, then a Step 3 run. -/
theorem step2_twice_then_step3_submits_second_witness :
    (step2 cStep2SignB (step2 cStep2SignA txOnlyState).1).1.secondSignerSignature =
      bcsToHexString [2] ∧
    (ExtCall.walletSubmit [171] [3] [[2]]) ∈
      (step3 cStep3Sign (step2 cStep2SignB (step2 cStep2SignA txOnlyState).1).1).2 ∧
    (∀ tx' sa' add, (ExtCall.walletSubmit tx' sa' add) ∈
        (step3 cStep3Sign (step2 cStep2SignB (step2 cStep2SignA txOnlyState).1).1).2 →
      add = [[2]]) :=
  step2_twice_then_step3_submits_second cStep2SignA cStep2SignB cStep3Sign txOnlyState
    [1] [2] [3] [171] rfl rfl rfl rfl rfl rfl (by decide) (by decide)

/-- C7: on every successful Step 2 the stored authenticator value
begins with the `0x` prefix (lines 154-156 normalize it), and the
byte-recovery Step 3 applies to a stored value (strip one `0x` prefix
when present, lines 197-203, then parse) yields the same bytes whether
or not the stored value carries the prefix. -/
theorem auth_prefix_normalized_and_tolerated :
    (∀ (env : Step2Env) (s : ComponentState), step2SucceedsB env s = true →
      strStartsWith (step2 env s).1.secondSignerSignature "0x" = true) ∧
    (∀ h : String, strStartsWith h "0x" = false →
      hexStringToBytes (step3AuthHex ("0x" ++ h)) = hexStringToBytes (step3AuthHex h)) := by
  constructor
  · intro env s h
    simp only [step2SucceedsB, Bool.and_eq_true, decide_eq_true_eq,
      Option.isSome_iff_exists] at h
    obtain ⟨⟨⟨⟨p, hp⟩, hne⟩, txb, htxb⟩, hok⟩ := h
    cases hsr : env.signResult with
    | error e => rw [hsr] at hok; simp [exceptIsOk] at hok
    | ok a =>
      rw [(step2_ok_effects env s p a txb hp hne htxb hsr).1, bcsToHexString]
      exact strStartsWith_0x_append _
  · intro h hx
    simp only [step3AuthHex, strStartsWith_0x_append, if_pos, strDrop_0x_append,
      hx, Bool.false_eq_true, if_false]

/-- Witness for C7: the concrete successful Step 2 run granting `[1]`
over the transaction slot `0xab`, and the bare hexadecimal body `ab`
with and without the prefix. -/
theorem auth_prefix_normalized_and_tolerated_witness :
    strStartsWith (step2 cStep2SignA txOnlyState).1.secondSignerSignature "0x" = true ∧
    hexStringToBytes (step3AuthHex ("0x" ++ "ab")) = hexStringToBytes (step3AuthHex "ab") :=
  ⟨auth_prefix_normalized_and_tolerated.1 cStep2SignA txOnlyState (by decide),
   auth_prefix_normalized_and_tolerated.2 "ab" (by decide)⟩

/-- C8: the hexadecimal encoding stored by a successful Step 1
deserializes (as Steps 2 and 3 do) to transaction bytes whose
re-serialization is byte-identical to the stored encoding: the
transport serialization is deterministic and lossless. -/
theorem step1_encoding_roundtrip :
    ∀ (env : Step1Env) (s : ComponentState), step1SucceedsB env = true →
      ∃ b : Bytes,
        hexStringToBytes ((step1 env s).1.serializedTransaction) = some b ∧
        bcsToHexString b = (step1 env s).1.serializedTransaction := by
  intro env s h
  refine ⟨step1TxBytes env, ?_, ?_⟩ <;> rw [step1_tx_of_succeeds env s h]
  exact hexStringToBytes_bcsToHexString _

/-- Witness for C8 at the concrete successful Step 1 run. -/
theorem step1_encoding_roundtrip_witness :
    ∃ b : Bytes,
      hexStringToBytes ((step1 cSuccessStep1 initialState).1.serializedTransaction) = some b ∧
      bcsToHexString b = (step1 cSuccessStep1 initialState).1.serializedTransaction :=
  step1_encoding_roundtrip cSuccessStep1 initialState (by decide)

/-- One user-triggered invocation of one of the three steps, with its
environment. -/
inductive StepCall where
  | createStep (env : Step1Env)
  | countersignStep (env : Step2Env)
  | submitStep (env : Step3Env)

/-- Run one step invocation on a component state. -/
def runCall : StepCall → ComponentState → ComponentState
  | .createStep env, s => (step1 env s).1
  | .countersignStep env, s => (step2 env s).1
  | .submitStep env, s => (step3 env s).1

/-- Run a sequence of step invocations from a component state. -/
def runCalls (cs : List StepCall) (s : ComponentState) : ComponentState :=
  cs.foldl (fun st c => runCall c st) s

/-- A non-empty authenticator slot implies a non-empty transaction
slot. -/
def txGuardsAuth (s : ComponentState) : Prop :=
  s.secondSignerSignature ≠ "" → s.serializedTransaction ≠ ""

theorem runCall_preserves_txGuardsAuth (c : StepCall) (s : ComponentState)
    (h : txGuardsAuth s) : txGuardsAuth (runCall c s) := by
  cases c with
  | createStep env =>
    intro ha
    rw [show runCall (.createStep env) s = (step1 env s).1 from rfl] at ha ⊢
    cases hsb : step1SucceedsB env with
    | false =>
      rw [step1_tx_of_fails env s hsb]
      rw [step1_auth_unchanged env s] at ha
      exact h ha
    | true =>
      rw [step1_tx_of_succeeds env s hsb]
      exact bcsToHexString_ne_empty _
  | countersignStep env =>
    intro ha
    rw [show runCall (.countersignStep env) s = (step2 env s).1 from rfl] at ha ⊢
    rw [step2_tx_unchanged env s]
    rcases step2_auth_cases env s with hc | ⟨hne, _⟩
    · rw [hc] at ha
      exact h ha
    · exact hne
  | submitStep env =>
    intro ha
    obtain ⟨h1, h2⟩ := step3_relay_unchanged env s
    rw [show runCall (.submitStep env) s = (step3 env s).1 from rfl] at ha ⊢
    rw [h1]
    apply h
    rw [← h2]
    exact ha

/-- C9: reachable-state invariant — starting from the initial state
(both Relay Store slots empty), after any sequence of invocations of
the three steps, a non-empty authenticator slot implies a non-empty
transaction slot. -/
theorem auth_nonempty_implies_tx_nonempty :
    ∀ cs : List StepCall,
      (runCalls cs initialState).secondSignerSignature ≠ "" →
      (runCalls cs initialState).serializedTransaction ≠ "" := by
  have main : ∀ (cs : List StepCall) (s : ComponentState),
      txGuardsAuth s → txGuardsAuth (runCalls cs s) := by
    intro cs
    induction cs with
    | nil => intro s h; exact h
    | cons c rest ih =>
      intro s h
      exact ih (runCall c s) (runCall_preserves_txGuardsAuth c s h)
  intro cs
  exact main cs initialState (fun h => absurd rfl h)

/-- Witness for C9: a successful Step 1 followed by a successful
Step 2 reaches a state with a non-empty authenticator slot, and the
invariant yields a non-empty transaction slot there. -/
theorem auth_nonempty_implies_tx_nonempty_witness :
    (runCalls [.createStep cSuccessStep1, .countersignStep cStep2SignA]
      initialState).serializedTransaction ≠ "" :=
  auth_nonempty_implies_tx_nonempty
    [.createStep cSuccessStep1, .countersignStep cStep2SignA] (by decide)

/-- C10: in every Step 1 invocation in which the operator supplies a
non-empty secondary-signer address (the prompt, line 72, is reached
only after the script fetch succeeded, lines 65-72, so a fetch success
is part of the hypothesis), the stored secondary-signer address is
updated to that value — the write at line 77 precedes the construction
call at line 86, as the build-failure case shows: even then the new
address is retained, while the two Relay Store slots stay untouched. -/
theorem step1_address_updated_and_retained :
    ∀ (env : Step1Env) (s : ComponentState) (addr : String) (bc : Bytes),
      env.account.isSome = true → env.fetchResult = .ok bc →
      env.promptResult = some addr → addr ≠ "" →
      (step1 env s).1.secondSignerAddress = addr ∧
      (∀ e, env.buildResult = .error e → relayUnchanged s (step1 env s).1) := by
  intro env s addr bc hacc hf hp hne
  obtain ⟨acc, now, nep, fr, pr, br⟩ := env
  rw [Option.isSome_iff_exists] at hacc
  obtain ⟨p, hp2⟩ := hacc
  cases hp2
  cases hf
  cases hp
  constructor
  · cases br with
    | error e => simp [step1, hne, pushLog]
    | ok tb => simp [step1, hne, pushLog]
  · intro e he
    cases he
    exact ⟨by simp [step1, hne, pushLog], by simp [step1, hne, pushLog]⟩

/-- A Step 1 environment whose transaction construction fails after a
successful fetch and a supplied address. -/
def cBuildFailStep1 : Step1Env :=
  { account := some "0xAAA", now := "t", nowEpoch := 0, fetchResult := .ok []
    promptResult := some "0xBBB", buildResult := .error "build failed" }

/-- Witness for C10 at a concrete build-failing run: the address is
stored and retained while the Relay Store slots are untouched. -/
theorem step1_address_updated_and_retained_witness :
    (step1 cBuildFailStep1 bothSlotsState).1.secondSignerAddress = "0xBBB" ∧
    (∀ e, cBuildFailStep1.buildResult = .error e →
      relayUnchanged bothSlotsState (step1 cBuildFailStep1 bothSlotsState).1) :=
  step1_address_updated_and_retained cBuildFailStep1 bothSlotsState "0xBBB" []
    rfl rfl rfl (by decide)
